import Mathlib

/-!
Verification of the rate-limiting and usage-accounting component of the
spotify-avatar repository, embedded shallowly from src/lib/rate-limiter.ts
and the caller in src/app/api/generate-avatar/route.ts.

Modelling conventions:
- JavaScript Date values and Date.now() are integers counting milliseconds
  since the Unix epoch; a whole call to checkRateLimit / rateLimitResponse
  is modelled at one instant `now` (the several Date.now() calls inside one
  request are not distinguished).
- The persisted ApiUsage table is a list of events threaded through every
  operation as explicit state, so that read-only operations are visibly
  read-only.  The id, cost and metadata columns of the Prisma ApiUsage
  model never influence the rate-limit logic and are omitted.
- Tiers are modelled as strings: the TypeScript tier annotation is
  compile-time only, and the check in the source is a runtime string
  comparison against the tier column of the user row.
-/

/-- A rate limit rule, from the RateLimitRule interface of
src/lib/rate-limiter.ts: time window in milliseconds, max requests in the
window, and an optional tier tag. -/
structure RateLimitRule where
  windowMs : Int
  maxRequests : Nat
  tier : Option String
deriving Repr, DecidableEq

/-- The static RATE_LIMITS table of src/lib/rate-limiter.ts, an association
list since JavaScript object key lookup is by string equality. -/
def RATE_LIMITS : List (String × List RateLimitRule) :=
  [("generate-avatar",
     [⟨60 * 1000, 5, some "FREE"⟩, ⟨60 * 1000, 20, some "PRO"⟩,
      ⟨60 * 1000, 100, some "ENTERPRISE"⟩]),
   ("download-avatar",
     [⟨60 * 1000, 30, some "FREE"⟩, ⟨60 * 1000, 100, some "PRO"⟩,
      ⟨60 * 1000, 500, some "ENTERPRISE"⟩]),
   ("spotify-data",
     [⟨60 * 1000, 10, some "FREE"⟩, ⟨60 * 1000, 10, some "PRO"⟩,
      ⟨60 * 1000, 10, some "ENTERPRISE"⟩])]

/-- RATE_LIMITS[endpoint]: none models the undefined lookup for an unknown
endpoint name. -/
def lookupRules (endpoint : String) : Option (List RateLimitRule) :=
  (RATE_LIMITS.find? (fun p => p.1 == endpoint)).map (fun p => p.2)

/-- One row of the ApiUsage table (prisma/schema.prisma): the columns the
rate limiter reads.  createdAt is milliseconds since the epoch. -/
structure ApiUsageEvent where
  userId : String
  endpoint : String
  createdAt : Int
deriving Repr, DecidableEq

/-- The persisted ApiUsage table, ordered by insertion. -/
abbrev Store := List ApiUsageEvent

/-- The prisma.apiUsage.count call of checkRateLimit: rows matching userId
and endpoint whose createdAt is gte (greater than or equal to) windowStart. -/
def countRecent (store : Store) (userId endpoint : String) (windowStart : Int) : Nat :=
  (store.filter (fun e =>
    e.userId == userId && e.endpoint == endpoint &&
      decide (windowStart ≤ e.createdAt))).length

/-- Placeholder for the unreachable undefined rule: JavaScript would fault
reading rule.windowMs when the rule list is empty, and no list of the static
table is empty. -/
def defaultRule : RateLimitRule := ⟨0, 0, none⟩

/-- The rule lookup of checkRateLimit line 39:
rules.find(r => r.tier === userTier) || rules[0]. -/
def resolveRule (rules : List RateLimitRule) (tier : String) : RateLimitRule :=
  (rules.find? (fun r => r.tier == some tier)).getD (rules.headD defaultRule)

/-- The remainingRequests value: a JavaScript number that is either a
nonnegative integer or Infinity (the unknown-endpoint fallback). -/
inductive RemainingCount where
  | finite (n : Nat)
  | infinite
deriving Repr, DecidableEq

/-- JavaScript Number.prototype.toString on the two shapes remainingRequests
takes. -/
def RemainingCount.toStr : RemainingCount → String
  | .finite n => toString n
  | .infinite => "Infinity"

/-- The result object of checkRateLimit. -/
structure RateLimitResult where
  allowed : Bool
  remainingRequests : RemainingCount
  resetTime : Int
deriving Repr, DecidableEq

/-- checkRateLimit of src/lib/rate-limiter.ts lines 28-58, with the store
threaded through its one database read. -/
def checkRateLimit (store : Store) (now : Int) (userId endpoint tier : String) :
    RateLimitResult × Store :=
  match lookupRules endpoint with
  | none =>
    ({ allowed := true, remainingRequests := .infinite, resetTime := now }, store)
  | some rules =>
    let rule := resolveRule rules tier
    let windowStart := now - rule.windowMs
    let recentRequests := countRecent store userId endpoint windowStart
    let remainingRequests := rule.maxRequests - recentRequests
    let allowed := decide (0 < remainingRequests)
    ({ allowed := allowed, remainingRequests := .finite remainingRequests,
       resetTime := now + rule.windowMs }, store)

/-- Math.ceil(ms / 1000) on an integer millisecond count. -/
def ceilSeconds (ms : Int) : Int := Int.fdiv (ms + 999) 1000

/-- The X-RateLimit-Limit header of the 429 response, line 81:
RATE_LIMITS[endpoint]?.find(r => r.tier === userTier)?.maxRequests.toString() || "0".
The exact-tier find has no rules[0] fallback; a Nat prints to a nonempty
string, so the JavaScript truthiness test only yields "0" when the lookup
itself is undefined. -/
def limitHeaderValue (endpoint tier : String) : String :=
  match lookupRules endpoint with
  | none => "0"
  | some rules =>
    match rules.find? (fun r => r.tier == some tier) with
    | some r => toString r.maxRequests
    | none => "0"

/-- Gregorian calendar date from a count of days since 1970-01-01 (the civil
from days algorithm), used to model Date.prototype.toISOString. -/
def civilFromDays (z : Int) : Int × Int × Int :=
  let z2 := z + 719468
  let era := Int.fdiv z2 146097
  let doe := z2 - era * 146097
  let yoe := Int.fdiv (doe - Int.fdiv doe 1460 + Int.fdiv doe 36524 - Int.fdiv doe 146096) 365
  let y := yoe + era * 400
  let doy := doe - (365 * yoe + Int.fdiv yoe 4 - Int.fdiv yoe 100)
  let mp := Int.fdiv (5 * doy + 2) 153
  let d := doy - Int.fdiv (153 * mp + 2) 5 + 1
  let m := mp + (if mp < 10 then 3 else -9)
  (y + (if m ≤ 2 then 1 else 0), m, d)

/-- Left-pads a decimal numeral to two digits. -/
def pad2 (n : Nat) : String :=
  if n < 10 then "0" ++ toString n else toString n

/-- Left-pads a decimal numeral to three digits. -/
def pad3 (n : Nat) : String :=
  if n < 10 then "00" ++ toString n
  else if n < 100 then "0" ++ toString n
  else toString n

/-- Left-pads a decimal numeral to four digits. -/
def pad4 (n : Nat) : String :=
  if n < 10 then "000" ++ toString n
  else if n < 100 then "00" ++ toString n
  else if n < 1000 then "0" ++ toString n
  else toString n

/-- Date.prototype.toISOString on a millisecond timestamp, for years 0-9999
(the expanded-year format outside that range never arises in this model). -/
def toISOString (t : Int) : String :=
  let days := Int.fdiv t 86400000
  let msod := (t - days * 86400000).toNat
  let ymd := civilFromDays days
  pad4 ymd.1.toNat ++ "-" ++ pad2 ymd.2.1.toNat ++ "-" ++ pad2 ymd.2.2.toNat ++
    "T" ++ pad2 (msod / 3600000) ++ ":" ++ pad2 (msod / 60000 % 60) ++ ":" ++
    pad2 (msod / 1000 % 60) ++ "." ++ pad3 (msod % 1000) ++ "Z"

/-- The details object of the 429 JSON body. -/
structure RejectionDetails where
  endpoint : String
  tier : String
  resetTime : String
deriving Repr, DecidableEq

/-- The 429 NextResponse built by rateLimitResponse: status, JSON body
fields, and headers as ordered key-value pairs. -/
structure ErrorResponse where
  status : Nat
  error : String
  details : RejectionDetails
  headers : List (String × String)
deriving Repr, DecidableEq

/-- rateLimitResponse of src/lib/rate-limiter.ts lines 60-91: null (none)
when allowed, otherwise the 429 response.  The Date.now() of the Retry-After
computation is the same instant `now` as the check. -/
def rateLimitResponse (store : Store) (now : Int) (userId endpoint tier : String) :
    Option ErrorResponse × Store :=
  let rs := checkRateLimit store now userId endpoint tier
  let r := rs.1
  if r.allowed then (none, rs.2)
  else
    (some
      { status := 429
        error := "Rate limit exceeded"
        details :=
          { endpoint := endpoint, tier := tier, resetTime := toISOString r.resetTime }
        headers :=
          [("X-RateLimit-Limit", limitHeaderValue endpoint tier),
           ("X-RateLimit-Remaining", r.remainingRequests.toStr),
           ("X-RateLimit-Reset", toString (ceilSeconds r.resetTime)),
           ("Retry-After", toString (ceilSeconds (r.resetTime - now)))] }, rs.2)

/-- addRateLimitHeaders of src/lib/rate-limiter.ts lines 93-104: sets the
three quota headers on a response (modelled as appending to its header
list). -/
def addRateLimitHeaders (headers : List (String × String))
    (remainingRequests : RemainingCount) (resetTime : Int) (maxRequests : Nat) :
    List (String × String) :=
  headers ++
    [("X-RateLimit-Limit", toString maxRequests),
     ("X-RateLimit-Remaining", remainingRequests.toStr),
     ("X-RateLimit-Reset", toString (ceilSeconds resetTime))]

/-- Header lookup by name. -/
def getHeader (headers : List (String × String)) (key : String) : Option String :=
  (headers.find? (fun p => p.1 == key)).map (fun p => p.2)

/-- The rules list that src/app/api/generate-avatar/route.ts lines 330-334
duplicates inline to pick the maxRequests for the success headers. -/
def generateAvatarRouteRules : List RateLimitRule :=
  [⟨60 * 1000, 5, some "FREE"⟩, ⟨60 * 1000, 20, some "PRO"⟩,
   ⟨60 * 1000, 100, some "ENTERPRISE"⟩]

/-- Outcome of the modelled POST handler: the 429 rejection, or success with
the headers attached to the JSON response. -/
inductive PostOutcome where
  | rejected (resp : ErrorResponse)
  | succeeded (headers : List (String × String))
deriving Repr, DecidableEq

/-- The rate-limit-relevant path of POST in
src/app/api/generate-avatar/route.ts lines 256-337: check the limit and
return the 429 if rejected; otherwise do the protected work (external
effects abstracted away), append one ApiUsage row (prisma.apiUsage.create,
createdAt assigned by the store clock, here the same instant `now`), re-run
checkRateLimit on the updated store, and attach the quota headers. -/
def generateAvatarPost (store : Store) (now : Int) (userId tier : String) :
    PostOutcome × Store :=
  match rateLimitResponse store now userId "generate-avatar" tier with
  | (some resp, store1) => (.rejected resp, store1)
  | (none, store1) =>
    let store2 := store1 ++ [⟨userId, "generate-avatar", now⟩]
    let rs := checkRateLimit store2 now userId "generate-avatar" tier
    let rule := resolveRule generateAvatarRouteRules tier
    (.succeeded
      (addRateLimitHeaders [] rs.1.remainingRequests rs.1.resetTime rule.maxRequests),
      rs.2)

/-- Unfolding of checkRateLimit when the endpoint has a rule list. -/
theorem checkRateLimit_eq_of_rules (store : Store) (now : Int)
    (userId endpoint tier : String) (rules : List RateLimitRule)
    (hr : lookupRules endpoint = some rules) :
    checkRateLimit store now userId endpoint tier =
      ({ allowed := decide (0 < (resolveRule rules tier).maxRequests -
            countRecent store userId endpoint
              (now - (resolveRule rules tier).windowMs)),
         remainingRequests := RemainingCount.finite
           ((resolveRule rules tier).maxRequests -
            countRecent store userId endpoint
              (now - (resolveRule rules tier).windowMs)),
         resetTime := now + (resolveRule rules tier).windowMs }, store) := by
  unfold checkRateLimit
  rw [hr]

/-- Unfolding of checkRateLimit when the endpoint has no rule list. -/
theorem checkRateLimit_eq_of_no_rules (store : Store) (now : Int)
    (userId endpoint tier : String) (hr : lookupRules endpoint = none) :
    checkRateLimit store now userId endpoint tier =
      ({ allowed := true, remainingRequests := RemainingCount.infinite,
         resetTime := now }, store) := by
  unfold checkRateLimit
  rw [hr]

/-- C1: when the operation has an entry in the rule table, count is the
number of persisted events for (subject, operation) with occurred_at greater
than or equal to now minus the window (inclusive boundary), remaining is
max(0, maxRequests minus count), and the call is admitted if and only if
remaining is positive, equivalently if and only if count is below
maxRequests. -/
theorem checkRateLimit_count_remaining_admitted (store : Store) (now : Int)
    (userId endpoint tier : String) (rules : List RateLimitRule)
    (hr : lookupRules endpoint = some rules) :
    countRecent store userId endpoint (now - (resolveRule rules tier).windowMs) =
      (store.filter (fun e => e.userId == userId && e.endpoint == endpoint &&
        decide (now - (resolveRule rules tier).windowMs ≤ e.createdAt))).length ∧
    (checkRateLimit store now userId endpoint tier).1.remainingRequests =
      RemainingCount.finite ((resolveRule rules tier).maxRequests -
        countRecent store userId endpoint (now - (resolveRule rules tier).windowMs)) ∧
    (((resolveRule rules tier).maxRequests -
        countRecent store userId endpoint
          (now - (resolveRule rules tier).windowMs) : Nat) : Int) =
      max 0 (((resolveRule rules tier).maxRequests : Int) -
        (countRecent store userId endpoint
          (now - (resolveRule rules tier).windowMs) : Int)) ∧
    ((checkRateLimit store now userId endpoint tier).1.allowed = true ↔
      0 < (resolveRule rules tier).maxRequests -
        countRecent store userId endpoint (now - (resolveRule rules tier).windowMs)) ∧
    ((checkRateLimit store now userId endpoint tier).1.allowed = true ↔
      countRecent store userId endpoint (now - (resolveRule rules tier).windowMs) <
        (resolveRule rules tier).maxRequests) := by
  have h := checkRateLimit_eq_of_rules store now userId endpoint tier rules hr
  refine ⟨rfl, ?_, ?_, ?_, ?_⟩
  · rw [h]
  · rw [max_def]
    split <;> omega
  · rw [h]
    simp only [decide_eq_true_eq]
  · rw [h]
    simp only [decide_eq_true_eq]
    omega

/-- Concrete instance of C1: one recorded event within the window, FREE
tier of generate-avatar, so admission reduces to 1 < 5. -/
theorem checkRateLimit_count_remaining_admitted_witness :
    lookupRules "generate-avatar" = some generateAvatarRouteRules ∧
    ((checkRateLimit [⟨"u", "generate-avatar", 0⟩] 1000 "u" "generate-avatar"
        "FREE").1.allowed = true ↔
      countRecent [⟨"u", "generate-avatar", 0⟩] "u" "generate-avatar"
          (1000 - (resolveRule generateAvatarRouteRules "FREE").windowMs) <
        (resolveRule generateAvatarRouteRules "FREE").maxRequests) :=
  ⟨rfl, (checkRateLimit_count_remaining_admitted [⟨"u", "generate-avatar", 0⟩]
    1000 "u" "generate-avatar" "FREE" generateAvatarRouteRules rfl).2.2.2.2⟩

/-- C2: whenever a rule resolves, reset_at is the moment of the check plus
the window duration, and it does not depend on the stored events at all. -/
theorem checkRateLimit_resetTime_now_plus_window (store : Store) (now : Int)
    (userId endpoint tier : String) (rules : List RateLimitRule)
    (hr : lookupRules endpoint = some rules) :
    (checkRateLimit store now userId endpoint tier).1.resetTime =
      now + (resolveRule rules tier).windowMs ∧
    ∀ store2 : Store,
      (checkRateLimit store2 now userId endpoint tier).1.resetTime =
        (checkRateLimit store now userId endpoint tier).1.resetTime := by
  refine ⟨by rw [checkRateLimit_eq_of_rules store now userId endpoint tier rules hr],
    fun store2 => ?_⟩
  rw [checkRateLimit_eq_of_rules store now userId endpoint tier rules hr,
    checkRateLimit_eq_of_rules store2 now userId endpoint tier rules hr]

/-- Concrete instance of C2: five events recorded up to 4 seconds in, the
check at 10 seconds still resets one full window after the check. -/
theorem checkRateLimit_resetTime_now_plus_window_witness :
    lookupRules "generate-avatar" = some generateAvatarRouteRules ∧
    (checkRateLimit [⟨"u", "generate-avatar", 0⟩] 10000 "u" "generate-avatar"
        "FREE").1.resetTime =
      10000 + (resolveRule generateAvatarRouteRules "FREE").windowMs :=
  ⟨rfl, (checkRateLimit_resetTime_now_plus_window [⟨"u", "generate-avatar", 0⟩]
    10000 "u" "generate-avatar" "FREE" generateAvatarRouteRules rfl).1⟩

/-- C3: the rule used by the check is the first rule whose tier tag equals
the subject tier when one exists, and otherwise the first rule of the list;
concretely, a generate-avatar check for the unlisted tier BASE enforces the
first-listed maxRequests of 5 and no other rule of that operation. -/
theorem checkRateLimit_rule_selection (rules : List RateLimitRule) (tier : String) :
    ((∃ r ∈ rules, r.tier = some tier) →
      (resolveRule rules tier).tier = some tier ∧ resolveRule rules tier ∈ rules) ∧
    ((∀ r ∈ rules, r.tier ≠ some tier) →
      resolveRule rules tier = rules.headD defaultRule) ∧
    (resolveRule generateAvatarRouteRules "BASE").maxRequests =
      (generateAvatarRouteRules.headD defaultRule).maxRequests ∧
    (∀ r ∈ generateAvatarRouteRules,
      r ≠ generateAvatarRouteRules.headD defaultRule →
        (resolveRule generateAvatarRouteRules "BASE").maxRequests ≠ r.maxRequests) ∧
    (checkRateLimit [] 0 "u" "generate-avatar" "BASE").1.remainingRequests =
      RemainingCount.finite 5 := by
  refine ⟨?_, ?_, by decide, by decide, by decide⟩
  · rintro ⟨r, hmem, htier⟩
    rcases hfind : rules.find? (fun r2 => r2.tier == some tier) with _ | a
    · rw [List.find?_eq_none] at hfind
      exact absurd (by simp [htier]) (hfind r hmem)
    · have h1 := List.find?_some hfind
      have h2 := List.mem_of_find?_eq_some hfind
      simp only [beq_iff_eq] at h1
      simp [resolveRule, hfind, h1, h2]
  · intro hnone
    have hfind : rules.find? (fun r2 => r2.tier == some tier) = none := by
      rw [List.find?_eq_none]
      intro x hx
      simp [hnone x hx]
    simp [resolveRule, hfind]

/-- C4: a check for an operation name with no entry in the rule table always
admits with unlimited remaining, and the HTTP wrapper produces no rejection. -/
theorem checkRateLimit_unknown_endpoint_permissive (store : Store) (now : Int)
    (userId endpoint tier : String) (hr : lookupRules endpoint = none) :
    (checkRateLimit store now userId endpoint tier).1.allowed = true ∧
    (checkRateLimit store now userId endpoint tier).1.remainingRequests =
      RemainingCount.infinite ∧
    (rateLimitResponse store now userId endpoint tier).1 = none := by
  have h := checkRateLimit_eq_of_no_rules store now userId endpoint tier hr
  refine ⟨by rw [h], by rw [h], ?_⟩
  unfold rateLimitResponse
  rw [h]
  rfl

/-- Concrete instance of C4: the unknown operation nonexistent-op admits
with Infinity remaining even against a store full of its events. -/
theorem checkRateLimit_unknown_endpoint_permissive_witness :
    lookupRules "nonexistent-op" = none ∧
    ((checkRateLimit [⟨"u", "nonexistent-op", 0⟩] 0 "u" "nonexistent-op"
        "FREE").1.allowed = true ∧
      (checkRateLimit [⟨"u", "nonexistent-op", 0⟩] 0 "u" "nonexistent-op"
        "FREE").1.remainingRequests = RemainingCount.infinite ∧
      (rateLimitResponse [⟨"u", "nonexistent-op", 0⟩] 0 "u" "nonexistent-op"
        "FREE").1 = none) :=
  ⟨rfl, checkRateLimit_unknown_endpoint_permissive [⟨"u", "nonexistent-op", 0⟩]
    0 "u" "nonexistent-op" "FREE" rfl⟩

/-- C9: in the unknown-operation fallback, resetTime is the instant of the
check itself, not the check instant plus any window duration. -/
theorem checkRateLimit_unknown_endpoint_resetTime (store : Store) (now : Int)
    (userId endpoint tier : String) (hr : lookupRules endpoint = none) :
    (checkRateLimit store now userId endpoint tier).1.resetTime = now := by
  rw [checkRateLimit_eq_of_no_rules store now userId endpoint tier hr]

/-- Concrete instance of C9: at instant 123456, the unknown-operation
fallback resets at 123456 itself. -/
theorem checkRateLimit_unknown_endpoint_resetTime_witness :
    lookupRules "no-such-op" = none ∧
    (checkRateLimit [] 123456 "u" "no-such-op" "FREE").1.resetTime = 123456 :=
  ⟨rfl, checkRateLimit_unknown_endpoint_resetTime [] 123456 "u" "no-such-op"
    "FREE" rfl⟩

/-- checkRateLimit never changes the store: its one database access is the
count query. -/
theorem checkRateLimit_store_eq (store : Store) (now : Int)
    (userId endpoint tier : String) :
    (checkRateLimit store now userId endpoint tier).2 = store := by
  unfold checkRateLimit
  cases h : lookupRules endpoint <;> rfl

/-- Unfolding of rateLimitResponse: the decision of the inner check selects
null or the full 429 response, and the store passes through unchanged. -/
theorem rateLimitResponse_eq (store : Store) (now : Int)
    (userId endpoint tier : String) :
    rateLimitResponse store now userId endpoint tier =
      ((if (checkRateLimit store now userId endpoint tier).1.allowed then none
        else some
          { status := 429
            error := "Rate limit exceeded"
            details :=
              { endpoint := endpoint, tier := tier
                resetTime := toISOString
                  (checkRateLimit store now userId endpoint tier).1.resetTime }
            headers :=
              [("X-RateLimit-Limit", limitHeaderValue endpoint tier),
               ("X-RateLimit-Remaining",
                 (checkRateLimit store now userId endpoint tier).1.remainingRequests.toStr),
               ("X-RateLimit-Reset", toString (ceilSeconds
                 (checkRateLimit store now userId endpoint tier).1.resetTime)),
               ("Retry-After", toString (ceilSeconds
                 ((checkRateLimit store now userId endpoint tier).1.resetTime - now)))] }),
       store) := by
  unfold rateLimitResponse
  cases h : (checkRateLimit store now userId endpoint tier).1.allowed <;>
    simp [h, checkRateLimit_store_eq]

/-- C5: whenever the decision is not to admit, the wrapper returns the 429
response with the fixed error body, the endpoint, tier and ISO reset time in
details, and the four rate-limit headers (reset as Unix seconds, rounded
up); whenever it admits, it returns null and no rejection is produced. -/
theorem rateLimitResponse_shape (store : Store) (now : Int)
    (userId endpoint tier : String) :
    (rateLimitResponse store now userId endpoint tier).1 =
      (if (checkRateLimit store now userId endpoint tier).1.allowed then none
       else some
        { status := 429
          error := "Rate limit exceeded"
          details :=
            { endpoint := endpoint, tier := tier
              resetTime := toISOString
                (checkRateLimit store now userId endpoint tier).1.resetTime }
          headers :=
            [("X-RateLimit-Limit", limitHeaderValue endpoint tier),
             ("X-RateLimit-Remaining",
               (checkRateLimit store now userId endpoint tier).1.remainingRequests.toStr),
             ("X-RateLimit-Reset", toString (ceilSeconds
               (checkRateLimit store now userId endpoint tier).1.resetTime)),
             ("Retry-After", toString (ceilSeconds
               ((checkRateLimit store now userId endpoint tier).1.resetTime - now)))] }) := by
  rw [rateLimitResponse_eq]

/-- The concrete scenario of the spec: five generate-avatar events for one
subject at 0, 1, 2, 3 and 4 seconds. -/
def scenarioStore : Store :=
  [⟨"u", "generate-avatar", 0⟩, ⟨"u", "generate-avatar", 1000⟩,
   ⟨"u", "generate-avatar", 2000⟩, ⟨"u", "generate-avatar", 3000⟩,
   ⟨"u", "generate-avatar", 4000⟩]

/-- Counterexample to C6 as stated: in the scenario (five events at 0..4 s,
rejected check at 10 s, FREE rule of window 60 s and max 5) the Retry-After
header is 60 seconds, the full window, not approximately 50 seconds. -/
theorem scenario_retryAfter_is_60_not_50 :
    ((rateLimitResponse scenarioStore 10000 "u" "generate-avatar" "FREE").1.map
      (fun resp => getHeader resp.headers "Retry-After")) = some (some "60") ∧
    ceilSeconds ((checkRateLimit scenarioStore 10000 "u" "generate-avatar"
      "FREE").1.resetTime - 10000) = 60 ∧ (60 : Int) ≠ 50 := by
  refine ⟨by decide, by decide, by decide⟩

/-- C6 amended: the Retry-After value is the ceiling of
(reset_at minus now) in seconds; since reset_at is now plus the window, that
is the ceiling of the window itself, and it is nonnegative whenever the
window is — in the concrete scenario it is 60 seconds, not 50. -/
theorem rateLimitResponse_retryAfter_amended (store : Store) (now : Int)
    (userId endpoint tier : String) (rules : List RateLimitRule)
    (hr : lookupRules endpoint = some rules)
    (hw : 0 ≤ (resolveRule rules tier).windowMs)
    (hrej : (checkRateLimit store now userId endpoint tier).1.allowed = false) :
    ((rateLimitResponse store now userId endpoint tier).1.map
      (fun resp => getHeader resp.headers "Retry-After")) =
      some (some (toString (ceilSeconds
        ((checkRateLimit store now userId endpoint tier).1.resetTime - now)))) ∧
    ceilSeconds ((checkRateLimit store now userId endpoint tier).1.resetTime - now) =
      ceilSeconds (resolveRule rules tier).windowMs ∧
    0 ≤ ceilSeconds (resolveRule rules tier).windowMs := by
  refine ⟨?_, ?_, ?_⟩
  · have hstep : (rateLimitResponse store now userId endpoint tier).1 =
        some
          { status := 429
            error := "Rate limit exceeded"
            details :=
              { endpoint := endpoint, tier := tier
                resetTime := toISOString
                  (checkRateLimit store now userId endpoint tier).1.resetTime }
            headers :=
              [("X-RateLimit-Limit", limitHeaderValue endpoint tier),
               ("X-RateLimit-Remaining",
                 (checkRateLimit store now userId endpoint tier).1.remainingRequests.toStr),
               ("X-RateLimit-Reset", toString (ceilSeconds
                 (checkRateLimit store now userId endpoint tier).1.resetTime)),
               ("Retry-After", toString (ceilSeconds
                 ((checkRateLimit store now userId endpoint tier).1.resetTime - now)))] } := by
      rw [rateLimitResponse_eq]
      simp [hrej]
    rw [hstep]
    rfl
  · rw [checkRateLimit_eq_of_rules store now userId endpoint tier rules hr]
    have harith : now + (resolveRule rules tier).windowMs - now =
        (resolveRule rules tier).windowMs := by ring
    rw [harith]
  · unfold ceilSeconds
    exact Int.fdiv_nonneg (by omega) (by norm_num)

/-- Concrete instance of the amended C6 at the scenario input. -/
theorem rateLimitResponse_retryAfter_amended_witness :
    lookupRules "generate-avatar" = some generateAvatarRouteRules ∧
    0 ≤ (resolveRule generateAvatarRouteRules "FREE").windowMs ∧
    (checkRateLimit scenarioStore 10000 "u" "generate-avatar" "FREE").1.allowed
      = false ∧
    (((rateLimitResponse scenarioStore 10000 "u" "generate-avatar" "FREE").1.map
      (fun resp => getHeader resp.headers "Retry-After")) =
      some (some (toString (ceilSeconds
        ((checkRateLimit scenarioStore 10000 "u" "generate-avatar"
          "FREE").1.resetTime - 10000)))) ∧
     ceilSeconds ((checkRateLimit scenarioStore 10000 "u" "generate-avatar"
        "FREE").1.resetTime - 10000) =
       ceilSeconds (resolveRule generateAvatarRouteRules "FREE").windowMs ∧
     0 ≤ ceilSeconds (resolveRule generateAvatarRouteRules "FREE").windowMs) :=
  ⟨rfl, by decide, by decide,
    rateLimitResponse_retryAfter_amended scenarioStore 10000 "u" "generate-avatar"
      "FREE" generateAvatarRouteRules rfl (by decide) (by decide)⟩

/-- C7: the check is a pure read-decision and the 429 wrapper performs no
side effect in either outcome: the stored events after each call equal the
stored events before it.  In the modelled POST route, the one append happens
only on the admitted path, after the check. -/
theorem rateLimiter_writes_no_event (store : Store) (now : Int)
    (userId endpoint tier : String) :
    (checkRateLimit store now userId endpoint tier).2 = store ∧
    (rateLimitResponse store now userId endpoint tier).2 = store ∧
    (generateAvatarPost store now userId tier).2 =
      (if (checkRateLimit store now userId "generate-avatar" tier).1.allowed
        then store ++ [⟨userId, "generate-avatar", now⟩] else store) := by
  refine ⟨checkRateLimit_store_eq store now userId endpoint tier,
    by rw [rateLimitResponse_eq], ?_⟩
  unfold generateAvatarPost
  rw [rateLimitResponse_eq]
  cases h : (checkRateLimit store now userId "generate-avatar" tier).1.allowed <;>
    simp [h, checkRateLimit_store_eq]

/-- The rule resolved for generate-avatar has the 60 second window whatever
the tier, since every rule of that operation (the first included) does. -/
theorem resolveRule_genAvatar_windowMs (tier : String) :
    (resolveRule generateAvatarRouteRules tier).windowMs = 60 * 1000 := by
  unfold resolveRule
  rcases h : generateAvatarRouteRules.find? (fun r => r.tier == some tier) with _ | r
  · rw [h]
    rfl
  · have hm := List.mem_of_find?_eq_some h
    rw [h]
    simp only [generateAvatarRouteRules, List.mem_cons,
      List.not_mem_nil, or_false] at hm
    rcases hm with h1 | h1 | h1 <;> subst h1 <;> rfl

/-- Appending one event that matches the subject, the operation and the
window adds one to the count. -/
theorem countRecent_append_matching (store : Store) (u e : String) (ws t : Int)
    (h : ws ≤ t) :
    countRecent (store ++ [⟨u, e, t⟩]) u e ws = countRecent store u e ws + 1 := by
  unfold countRecent
  rw [List.filter_append, List.length_append]
  simp [h]

/-- C8: on the admitted path the route records the event first and re-runs
the check, so the X-RateLimit-Remaining header is
max(0, maxRequests minus (preCount + 1)) — the count already including the
just-recorded event — not a decrement of the pre-record remaining. -/
theorem generateAvatarPost_remaining_header (store : Store) (now : Int)
    (userId tier : String)
    (hadm : (checkRateLimit store now userId "generate-avatar" tier).1.allowed
      = true) :
    (generateAvatarPost store now userId tier).1 =
      PostOutcome.succeeded (addRateLimitHeaders []
        (RemainingCount.finite
          ((resolveRule generateAvatarRouteRules tier).maxRequests -
            (countRecent store userId "generate-avatar"
              (now - (resolveRule generateAvatarRouteRules tier).windowMs) + 1)))
        (now + (resolveRule generateAvatarRouteRules tier).windowMs)
        (resolveRule generateAvatarRouteRules tier).maxRequests) ∧
    (match (generateAvatarPost store now userId tier).1 with
     | PostOutcome.succeeded hs => getHeader hs "X-RateLimit-Remaining"
     | PostOutcome.rejected _ => none) =
      some (toString
        ((resolveRule generateAvatarRouteRules tier).maxRequests -
          (countRecent store userId "generate-avatar"
            (now - (resolveRule generateAvatarRouteRules tier).windowMs) + 1))) := by
  have hwin : now - (resolveRule generateAvatarRouteRules tier).windowMs ≤ now := by
    rw [resolveRule_genAvatar_windowMs]
    omega
  have h1 : (generateAvatarPost store now userId tier).1 =
      PostOutcome.succeeded (addRateLimitHeaders []
        (RemainingCount.finite
          ((resolveRule generateAvatarRouteRules tier).maxRequests -
            (countRecent store userId "generate-avatar"
              (now - (resolveRule generateAvatarRouteRules tier).windowMs) + 1)))
        (now + (resolveRule generateAvatarRouteRules tier).windowMs)
        (resolveRule generateAvatarRouteRules tier).maxRequests) := by
    have hck := checkRateLimit_eq_of_rules
      (store ++ [(⟨userId, "generate-avatar", now⟩ : ApiUsageEvent)])
      now userId "generate-avatar" tier generateAvatarRouteRules rfl
    have hcnt := countRecent_append_matching store userId "generate-avatar"
      (now - (resolveRule generateAvatarRouteRules tier).windowMs) now hwin
    unfold generateAvatarPost
    rw [rateLimitResponse_eq, hadm]
    simp only [if_true]
    rw [hck, hcnt]
  refine ⟨h1, ?_⟩
  rw [h1]
  rfl

/-- Concrete instance of C8: from an empty store the admitted FREE call
reports 5 - (0 + 1) = 4 remaining. -/
theorem generateAvatarPost_remaining_header_witness :
    (checkRateLimit [] 0 "u" "generate-avatar" "FREE").1.allowed = true ∧
    (match (generateAvatarPost [] 0 "u" "FREE").1 with
     | PostOutcome.succeeded hs => getHeader hs "X-RateLimit-Remaining"
     | PostOutcome.rejected _ => none) =
      some (toString
        ((resolveRule generateAvatarRouteRules "FREE").maxRequests -
          (countRecent [] "u" "generate-avatar"
            (0 - (resolveRule generateAvatarRouteRules "FREE").windowMs) + 1))) :=
  ⟨by decide, (generateAvatarPost_remaining_header [] 0 "u" "FREE" (by decide)).2⟩

/-- C10: for a rejection whose tier matches no rule of the operation, the
429 X-RateLimit-Limit header is the string 0 — the header lookup has no
first-rule fallback — while the admission decision itself was made under
the first-listed rule. -/
theorem rateLimitResponse_limit_header_zero (store : Store) (now : Int)
    (userId endpoint tier : String) (rules : List RateLimitRule)
    (hr : lookupRules endpoint = some rules)
    (hnf : rules.find? (fun r => r.tier == some tier) = none)
    (hrej : (checkRateLimit store now userId endpoint tier).1.allowed = false) :
    limitHeaderValue endpoint tier = "0" ∧
    ((rateLimitResponse store now userId endpoint tier).1.map
      (fun resp => getHeader resp.headers "X-RateLimit-Limit")) =
      some (some "0") ∧
    resolveRule rules tier = rules.headD defaultRule := by
  have hlhv : limitHeaderValue endpoint tier = "0" := by
    simp only [limitHeaderValue, hr, hnf]
  refine ⟨hlhv, ?_, by unfold resolveRule; rw [hnf]; rfl⟩
  have hstep : (rateLimitResponse store now userId endpoint tier).1 =
      some
        { status := 429
          error := "Rate limit exceeded"
          details :=
            { endpoint := endpoint, tier := tier
              resetTime := toISOString
                (checkRateLimit store now userId endpoint tier).1.resetTime }
          headers :=
            [("X-RateLimit-Limit", limitHeaderValue endpoint tier),
             ("X-RateLimit-Remaining",
               (checkRateLimit store now userId endpoint tier).1.remainingRequests.toStr),
             ("X-RateLimit-Reset", toString (ceilSeconds
               (checkRateLimit store now userId endpoint tier).1.resetTime)),
             ("Retry-After", toString (ceilSeconds
               ((checkRateLimit store now userId endpoint tier).1.resetTime - now)))] } := by
    rw [rateLimitResponse_eq]
    simp [hrej]
  rw [hstep]
  show some (some (limitHeaderValue endpoint tier)) = some (some "0")
  rw [hlhv]

/-- Concrete instance of C10: five events, unlisted tier BASE, rejected at
10 seconds under the first-listed max of 5, yet the limit header reads 0. -/
theorem rateLimitResponse_limit_header_zero_witness :
    lookupRules "generate-avatar" = some generateAvatarRouteRules ∧
    generateAvatarRouteRules.find? (fun r => r.tier == some "BASE") = none ∧
    (checkRateLimit scenarioStore 10000 "u" "generate-avatar" "BASE").1.allowed
      = false ∧
    (limitHeaderValue "generate-avatar" "BASE" = "0" ∧
      ((rateLimitResponse scenarioStore 10000 "u" "generate-avatar" "BASE").1.map
        (fun resp => getHeader resp.headers "X-RateLimit-Limit")) =
        some (some "0") ∧
      resolveRule generateAvatarRouteRules "BASE" =
        generateAvatarRouteRules.headD defaultRule) :=
  ⟨rfl, by decide, by decide,
    rateLimitResponse_limit_header_zero scenarioStore 10000 "u" "generate-avatar"
      "BASE" generateAvatarRouteRules rfl (by decide) (by decide)⟩

example :
    (checkRateLimit [] 0 "u" "generate-avatar" "FREE").1 =
      { allowed := true, remainingRequests := .finite 5, resetTime := 60000 } := by
  decide

example :
    (checkRateLimit [⟨"u", "generate-avatar", 0⟩, ⟨"u", "generate-avatar", 1000⟩]
        10000 "u" "generate-avatar" "FREE").1.remainingRequests = .finite 3 := by
  decide

example : toISOString 0 = "1970-01-01T00:00:00.000Z" := by decide
